import Mathlib

/-!
Verification of `src/steps/zsh.rs` of the topgrade repository, against its
natural-language specification.  The step functions of that file are embedded
shallowly: filesystem, environment and subprocess behaviour are supplied by an
explicit `World` oracle, and every observable action (spawning a process,
printing, pulling a repository) is recorded in an event trace.  Collaborators
that live outside the provided sources (`require` from utils.rs, the dual-mode
executor from executor.rs, `Repositories`/`multi_pull` from git.rs) are
modelled from the specification, as marked on each definition.
-/

namespace Topgrade

/-- A filesystem path, as a list of components (root components such as
"/home/u" may be a single component; `join` appends one component). -/
abbrev FsPath := List String

/-- Rendering of a path for display / string keying, mirroring
`Path::display` and `to_string_lossy`. -/
def canon (p : FsPath) : String := String.intercalate "/" p

/-- Embeds `RunType` from executor.rs: dry-run vs execute mode. -/
inductive RunType where
  | dryRun
  | execute
deriving DecidableEq, Repr

/-- Errors a step can return (the `Result` error channel of the Rust code). -/
inductive StepError where
  /-- Meaning: `require(name)` failed: the binary is not on the search path. -/
  | requirementMissing (name : String)
  /-- Meaning: `PathExt::require` failed: a needed path does not exist. -/
  | pathMissing
  /-- A filesystem-traversal / IO error (e.g. from the `WalkDir` iterator). -/
  | ioFailure (msg : String)
  /-- A spawned process exited with an unexpected nonzero code. -/
  | nonZeroExit (code : Nat)
deriving DecidableEq, Repr

/-- Observable events emitted while a step runs. -/
inductive Event where
  /-- A real subprocess was spawned with this program and argument list. -/
  | spawn (prog : String) (args : List String)
  /-- Dry-run trace: the command that would have been run. -/
  | wouldRun (prog : String) (args : List String)
  /-- Output of `print_separator(name)`. -/
  | separator (name : String)
  /-- Output of `println!`. -/
  | println (msg : String)
  /-- The bulk git updater performed a pull of this repository. -/
  | pullRepo (repo : String)
deriving DecidableEq, Repr

/-- A node of the filesystem tree walked by `WalkDir`: a directory entry with
a flag saying whether it is a git working-tree root, or an entry whose
retrieval errors (inaccessible). -/
inductive FsNode where
  | dir (name : String) (isRepo : Bool) (children : List FsNode)
  | err (msg : String)
deriving Repr

/-- Name of a node (used to extend the path when descending). -/
def FsNode.name : FsNode → String
  | .dir n _ _ => n
  | .err _ => ""

/-- The external world a step interacts with: search path, environment
variables, subprocess behaviour, filesystem. -/
structure World where
  /-- Oracle for `utils::require`: program name to resolved path, if found. -/
  pathLookup : String → Option String
  /-- Oracle for `env::var`. -/
  envVar : String → Option String
  /-- Result of the direct `Command::new("zsh")` probe invocations
  (`output_checked_utf8`, mapped to stdout): error or stdout text. -/
  runProbe : List String → Except String String
  /-- Value of `base_dirs.home_dir()`. -/
  homeDir : FsPath
  /-- Oracle for `PathExt::require` / path existence. -/
  pathExists : FsPath → Bool
  /-- Filesystem tree rooted at a path, as walked by `WalkDir::new`. -/
  fsAt : FsPath → FsNode
  /-- Exit code of a really spawned process. -/
  exitCode : String → List String → Nat

/-- Modelled from the spec: `require(name) -> path | NotFound` from utils.rs
(not under src/): absolute path on success, `RequirementMissing(name)` when
the program cannot be located on the search path. -/
def require (w : World) (name : String) : Except StepError String :=
  match w.pathLookup name with
  | some p => Except.ok p
  | none => Except.error (StepError.requirementMissing name)

/-- Modelled from the spec: `PathExt::require` from utils.rs (not under
src/): the path itself when it exists, otherwise a skip-step error. -/
def pathRequire (w : World) (p : FsPath) : Except StepError FsPath :=
  if w.pathExists p then Except.ok p else Except.error StepError.pathMissing

/-- Modelled from the spec: the dual-mode executor, its `status_checked` /
`status_checked_with_codes` (command.rs / executor.rs, not under src/).  In
`Execute` mode the process is spawned and success means exit code 0 or a code
in the accepted set; in `DryRun` mode nothing is spawned, the command is only
traced, and the result is success. -/
def execStatusChecked (w : World) (rt : RunType) (prog : String)
    (args : List String) (accepted : List Nat) :
    List Event × Except StepError Unit :=
  match rt with
  | RunType.dryRun => ([Event.wouldRun prog args], Except.ok ())
  | RunType.execute =>
      let code := w.exitCode prog args
      ([Event.spawn prog args],
        if code = 0 ∨ code ∈ accepted then Except.ok ()
        else Except.error (StepError.nonZeroExit code))

/-- Embeds `zdotdir`: the `ZDOTDIR` environment variable if set, otherwise the home
directory. -/
def zdotdir (w : World) : FsPath :=
  match w.envVar "ZDOTDIR" with
  | some v => [v]
  | none => w.homeDir

/-- Embeds `zshrc`: `zdotdir` joined with `.zshrc`. -/
def zshrc (w : World) : FsPath := zdotdir w ++ [".zshrc"]

/-- Embeds `run_zr`. -/
def run_zr (w : World) (rt : RunType) : List Event × Except StepError Unit :=
  match require w "zsh" with
  | Except.error e => ([], Except.error e)
  | Except.ok zsh =>
    match require w "zr" with
    | Except.error e => ([], Except.error e)
    | Except.ok _ =>
      let cmd := "source " ++ canon (zshrc w) ++ " && zr --update"
      let (t, r) := execStatusChecked w rt zsh ["-l", "-c", cmd] []
      (Event.separator "zr" :: t, r)

/-- Embeds `run_antidote`. -/
def run_antidote (w : World) (rt : RunType) :
    List Event × Except StepError Unit :=
  match require w "zsh" with
  | Except.error e => ([], Except.error e)
  | Except.ok zsh =>
    match pathRequire w (zdotdir w ++ [".antidote"]) with
    | Except.error e => ([], Except.error e)
    | Except.ok antidote =>
      let file := antidote ++ ["antidote.zsh"]
      let cmd := "source " ++ canon file ++ " && antidote update"
      let (t, r) := execStatusChecked w rt zsh ["-c", cmd] []
      (Event.separator "antidote" :: t, r)

/-- Embeds `run_antibody`. -/
def run_antibody (w : World) (rt : RunType) :
    List Event × Except StepError Unit :=
  match require w "zsh" with
  | Except.error e => ([], Except.error e)
  | Except.ok _ =>
    match require w "antibody" with
    | Except.error e => ([], Except.error e)
    | Except.ok antibody =>
      let (t, r) := execStatusChecked w rt antibody ["update"] []
      (Event.separator "antibody" :: t, r)

/-- Env-var override with a default path, mirroring the repeated Rust pattern
`env::var(name).map(PathBuf::from).unwrap_or_else(|_| default)`. -/
def envPathOr (w : World) (name : String) (default : FsPath) : FsPath :=
  match w.envVar name with
  | some v => [v]
  | none => default

/-- Embeds `run_antigen`. -/
def run_antigen (w : World) (rt : RunType) :
    List Event × Except StepError Unit :=
  match require w "zsh" with
  | Except.error e => ([], Except.error e)
  | Except.ok zsh =>
    match pathRequire w (zshrc w) with
    | Except.error e => ([], Except.error e)
    | Except.ok rc =>
      match pathRequire w (envPathOr w "ADOTDIR" (w.homeDir ++ ["antigen.zsh"])) with
      | Except.error e => ([], Except.error e)
      | Except.ok _ =>
        let cmd := "source " ++ canon rc ++ " && (antigen selfupdate ; antigen update)"
        let (t, r) := execStatusChecked w rt zsh ["-l", "-c", cmd] []
        (Event.separator "antigen" :: t, r)

/-- Embeds `run_zgenom`. -/
def run_zgenom (w : World) (rt : RunType) :
    List Event × Except StepError Unit :=
  match require w "zsh" with
  | Except.error e => ([], Except.error e)
  | Except.ok zsh =>
    match pathRequire w (zshrc w) with
    | Except.error e => ([], Except.error e)
    | Except.ok rc =>
      match pathRequire w (envPathOr w "ZGEN_SOURCE" (w.homeDir ++ [".zgenom"])) with
      | Except.error e => ([], Except.error e)
      | Except.ok _ =>
        let cmd := "source " ++ canon rc ++ " && zgenom selfupdate && zgenom update"
        let (t, r) := execStatusChecked w rt zsh ["-l", "-c", cmd] []
        (Event.separator "zgenom" :: t, r)

/-- Embeds `run_zplug`. -/
def run_zplug (w : World) (rt : RunType) :
    List Event × Except StepError Unit :=
  match require w "zsh" with
  | Except.error e => ([], Except.error e)
  | Except.ok zsh =>
    match pathRequire w (zshrc w) with
    | Except.error e => ([], Except.error e)
    | Except.ok _ =>
      match pathRequire w (envPathOr w "ZPLUG_HOME" (w.homeDir ++ [".zplug"])) with
      | Except.error e => ([], Except.error e)
      | Except.ok _ =>
        let (t, r) := execStatusChecked w rt zsh ["-i", "-c", "zplug update"] []
        (Event.separator "zplug" :: t, r)

/-- Embeds `run_zinit`. -/
def run_zinit (w : World) (rt : RunType) :
    List Event × Except StepError Unit :=
  match require w "zsh" with
  | Except.error e => ([], Except.error e)
  | Except.ok zsh =>
    match pathRequire w (zshrc w) with
    | Except.error e => ([], Except.error e)
    | Except.ok rc =>
      match pathRequire w (envPathOr w "ZINIT_HOME" (w.homeDir ++ [".zinit"])) with
      | Except.error e => ([], Except.error e)
      | Except.ok _ =>
        let cmd := "source " ++ canon rc ++ " && zinit self-update && zinit update --all"
        let (t, r) := execStatusChecked w rt zsh ["-i", "-c", cmd] []
        (Event.separator "zinit" :: t, r)

/-- Embeds `run_zi`. -/
def run_zi (w : World) (rt : RunType) : List Event × Except StepError Unit :=
  match require w "zsh" with
  | Except.error e => ([], Except.error e)
  | Except.ok zsh =>
    match pathRequire w (zshrc w) with
    | Except.error e => ([], Except.error e)
    | Except.ok rc =>
      match pathRequire w (w.homeDir ++ [".zi"]) with
      | Except.error e => ([], Except.error e)
      | Except.ok _ =>
        let cmd := "source " ++ canon rc ++ " && zi self-update && zi update --all"
        let (t, r) := execStatusChecked w rt zsh ["-i", "-c", cmd] []
        (Event.separator "zi" :: t, r)

/-- Argument list of the direct `Command::new("zsh")` probe in `run_zim`. -/
def zimProbeArgs : List String :=
  ["-c", "[[ -n $\x7bZIM_HOME\x7d ]] && print -n $\x7bZIM_HOME\x7d"]

/-- Argument list of the direct `Command::new("zsh")` probe in
`run_oh_my_zsh`. -/
def ohMyZshProbeArgs : List String :=
  ["-c", "test $ZSH_CUSTOM && echo -n $ZSH_CUSTOM"]

/-- The env-then-shell-probe-then-default resolution chain
`env::var(name).or_else(probe).map(PathBuf::from).unwrap_or_else(default)`
of `run_zim` and `run_oh_my_zsh`.  The probe is a direct `Command::new`
invocation, recorded as a real spawn regardless of the run type.  Returns the
probe trace and the resolved path. -/
def resolveProbePath (w : World) (name : String) (probeArgs : List String)
    (default : FsPath) : List Event × FsPath :=
  match w.envVar name with
  | some v => ([], [v])
  | none =>
    match w.runProbe probeArgs with
    | Except.ok out => ([Event.spawn "zsh" probeArgs], [out])
    | Except.error _ => ([Event.spawn "zsh" probeArgs], default)

/-- Embeds `run_zim`. -/
def run_zim (w : World) (rt : RunType) : List Event × Except StepError Unit :=
  match require w "zsh" with
  | Except.error e => ([], Except.error e)
  | Except.ok zsh =>
    let (probeTrace, zimHome) :=
      resolveProbePath w "ZIM_HOME" zimProbeArgs (w.homeDir ++ [".zim"])
    match pathRequire w zimHome with
    | Except.error e => (probeTrace, Except.error e)
    | Except.ok _ =>
      let (t, r) :=
        execStatusChecked w rt zsh ["-i", "-c", "zimfw upgrade && zimfw update"] []
      (probeTrace ++ Event.separator "zim" :: t, r)

/-- The `WalkDir::new(root).max_depth(d)` iterator: yields the root entry and
descends into children while fuel remains; an inaccessible entry yields an
`Err` item, which the `for`-loop of `run_oh_my_zsh` turns into a step error.
Each yielded entry carries its path and whether it is a git working-tree
root. -/
def walkNode : Nat → FsNode → FsPath → List (Except String (FsPath × Bool))
  | _, FsNode.err msg, _ => [Except.error msg]
  | fuel, FsNode.dir _ isRepo children, path =>
    Except.ok (path, isRepo) ::
      match fuel with
      | 0 => []
      | Nat.succ n =>
        children.attach.flatMap fun c => walkNode n c.1 (path ++ [c.1.name])

/-- Modelled from the spec: a `RepositorySet` (git.rs, not under src/) is a
mapping keyed by canonical path; we keep the key list, unique, in insertion
order. -/
abbrev RepoSet := List String

/-- Modelled from the spec: duplicate insertions of the same canonical path
are no-ops (idempotent). -/
def RepoSet.insert (s : RepoSet) (key : String) : RepoSet :=
  if key ∈ s then s else s ++ [key]

/-- Modelled from the spec: `Repositories::remove` drops one path from the
set before updating. -/
def RepoSet.remove (s : RepoSet) (key : String) : RepoSet :=
  s.filter (fun k => k ≠ key)

/-- The discovery loop of `run_oh_my_zsh`:
`for entry in WalkDir... { let entry = entry?; custom_repos.insert_if_repo(entry.path()); }`.
A traversal error aborts the loop and propagates; `insert_if_repo` (modelled
from the spec, git.rs not under src/) inserts the canonical path exactly when
the entry is a git working-tree root. -/
def discoverRepos : List (Except String (FsPath × Bool)) → RepoSet →
    Except StepError RepoSet
  | [], s => Except.ok s
  | Except.error e :: _, _ => Except.error (StepError.ioFailure e)
  | Except.ok (p, isRepo) :: rest, s =>
      discoverRepos rest (if isRepo then RepoSet.insert s (canon p) else s)

/-- Modelled from the spec: `multi_pull` (git.rs, not under src/) performs a
git pull for every entry of the set, containing per-repository failures, so
it touches exactly the members of the set. -/
def multiPull (s : RepoSet) : List Event := s.map Event.pullRepo

/-- Arguments of the final upgrade-script invocation of `run_oh_my_zsh`. -/
def ohMyZshUpgradeArgs (w : World) : List String :=
  [canon (w.homeDir ++ [".oh-my-zsh", "tools/upgrade.sh"])]

/-- Embeds `run_oh_my_zsh`. -/
def run_oh_my_zsh (w : World) (rt : RunType) :
    List Event × Except StepError Unit :=
  match require w "zsh" with
  | Except.error e => ([], Except.error e)
  | Except.ok _ =>
    let ohMyZsh := w.homeDir ++ [".oh-my-zsh"]
    match pathRequire w ohMyZsh with
    | Except.error e => ([], Except.error e)
    | Except.ok _ =>
      let (probeTrace, customDir) :=
        resolveProbePath w "ZSH_CUSTOM" ohMyZshProbeArgs (ohMyZsh ++ ["custom"])
      match discoverRepos (walkNode 2 (w.fsAt customDir) customDir) [] with
      | Except.error e =>
          (Event.separator "oh-my-zsh" :: probeTrace, Except.error e)
      | Except.ok repos =>
        let repos2 := RepoSet.remove repos (canon ohMyZsh)
        let pullTrace :=
          if repos2.isEmpty then []
          else Event.println "Pulling custom plugins and themes" :: multiPull repos2
        let (t, r) := execStatusChecked w rt "zsh" (ohMyZshUpgradeArgs w) [80]
        (Event.separator "oh-my-zsh" :: probeTrace ++ pullTrace ++ t, r)

/-- Per-step outcome classification of the step runner. -/
inductive Outcome where
  | succeeded
  | skipped
  | failed
deriving DecidableEq, Repr

/-- Modelled from the spec: the classification done by the step runner (main.rs /
report.rs, not under src/): a missing requirement or missing path is
`Skipped`; an IO error or unexpected nonzero exit is `Failed`; otherwise
`Succeeded` (an accepted nonzero exit code is already turned into success by
the executor). -/
def classify : Except StepError Unit → Outcome
  | Except.ok _ => Outcome.succeeded
  | Except.error (StepError.requirementMissing _) => Outcome.skipped
  | Except.error StepError.pathMissing => Outcome.skipped
  | Except.error (StepError.ioFailure _) => Outcome.failed
  | Except.error (StepError.nonZeroExit _) => Outcome.failed

/-- Modelled from the spec: the step runner invokes every configured step in
order and classifies the result of each step independently; a failure of one step
never stops the run. -/
def runSteps (steps : List (String × (World → RunType → List Event × Except StepError Unit)))
    (w : World) (rt : RunType) : List (String × Outcome) :=
  steps.map fun s => (s.1, classify (s.2 w rt).2)

/-- A concrete world used to exercise the definitions: zsh, zr and antibody
installed, `ZSH_CUSTOM` set, every other variable unset, the shell probe
failing, all paths existing, one plugin repository under the custom dir, and
every spawned process exiting 0. -/
def wBase : World where
  pathLookup := fun n =>
    if n = "zsh" then some "/bin/zsh"
    else if n = "zr" then some "/bin/zr"
    else if n = "antibody" then some "/bin/antibody"
    else none
  envVar := fun n => if n = "ZSH_CUSTOM" then some "/custom" else none
  runProbe := fun _ => Except.error "probe failed"
  homeDir := ["/home/u"]
  pathExists := fun _ => true
  fsAt := fun _ => FsNode.dir "custom" false [FsNode.dir "plug" true []]
  exitCode := fun _ _ => 0

/-- A world where no external program is installed. -/
def wNoZsh : World := { wBase with pathLookup := fun _ => none }

/-- A world where zsh is installed but nothing else is. -/
def wOnlyZsh : World :=
  { wBase with
      pathLookup := fun n => if n = "zsh" then some "/bin/zsh" else none }

/-- A world with `ZDOTDIR` set. -/
def wZdot : World :=
  { wBase with envVar := fun n => if n = "ZDOTDIR" then some "/zdot" else none }

/-- A world where every spawned process exits with code 80. -/
def wExit80 : World := { wBase with exitCode := fun _ _ => 80 }

/-- A world where every spawned process exits with code 7. -/
def wExit7 : World := { wBase with exitCode := fun _ _ => 7 }

/-- A world whose custom-plugins directory holds no git repository. -/
def wNoRepos : World :=
  { wBase with fsAt := fun _ => FsNode.dir "custom" false [] }

/-- A world whose custom-plugins directory is inaccessible: walking it yields
an error entry. -/
def wWalkErr : World := { wBase with fsAt := fun _ => FsNode.err "denied" }

/-- C10: the zshrc path resolver is total and deterministic: it is a total
function of the world; when `ZDOTDIR` is set the result is `ZDOTDIR/.zshrc`,
otherwise it is `home_dir/.zshrc`; and the result always ends in the file
name `.zshrc`. -/
theorem C10_zshrc_total_deterministic (w : World) :
    (∀ v, w.envVar "ZDOTDIR" = some v → zshrc w = [v, ".zshrc"]) ∧
    (w.envVar "ZDOTDIR" = none → zshrc w = w.homeDir ++ [".zshrc"]) ∧
    (zshrc w).getLast? = some ".zshrc" := by
  refine ⟨?_, ?_, ?_⟩
  · intro v hv
    simp [zshrc, zdotdir, hv]
  · intro hv
    simp [zshrc, zdotdir, hv]
  · unfold zshrc
    exact List.getLast?_concat _

/-- Witness for C10 at a concrete world with `ZDOTDIR` set. -/
theorem C10_witness : zshrc wZdot = ["/zdot", ".zshrc"] :=
  (C10_zshrc_total_deterministic wZdot).1 "/zdot" rfl

/-- The inserted key is always a member of the set after insertion. -/
theorem RepoSet.mem_insert_self (s : RepoSet) (k : String) :
    k ∈ RepoSet.insert s k := by
  unfold RepoSet.insert
  split
  · assumption
  · simp

/-- C9: RepositorySet insertion is idempotent: inserting the same path twice
yields the same set as inserting it once, and a fresh set holds the path
exactly once (size 1). -/
theorem C9_insert_idempotent (s : RepoSet) (p : String) :
    RepoSet.insert (RepoSet.insert s p) p = RepoSet.insert s p ∧
    (RepoSet.insert (RepoSet.insert [] p) p).length = 1 := by
  constructor
  · by_cases hs : p ∈ s
    · simp [RepoSet.insert, hs]
    · simp [RepoSet.insert, hs]
  · simp [RepoSet.insert]

/-- C8: the oh-my-zsh custom directory and the zim home are resolved by the
fixed three-stage chain: the environment variable when set; otherwise the
stdout of the shell probe when the probe succeeds; otherwise the default path
(`oh_my_zsh/custom` for `ZSH_CUSTOM`, `home/.zim` for `ZIM_HOME`). -/
theorem C8_env_probe_default_order (w : World) :
    (∀ v, w.envVar "ZSH_CUSTOM" = some v →
      resolveProbePath w "ZSH_CUSTOM" ohMyZshProbeArgs
        (w.homeDir ++ [".oh-my-zsh"] ++ ["custom"]) = ([], [v])) ∧
    (∀ out, w.envVar "ZSH_CUSTOM" = none →
      w.runProbe ohMyZshProbeArgs = Except.ok out →
      resolveProbePath w "ZSH_CUSTOM" ohMyZshProbeArgs
        (w.homeDir ++ [".oh-my-zsh"] ++ ["custom"]) =
        ([Event.spawn "zsh" ohMyZshProbeArgs], [out])) ∧
    (∀ e, w.envVar "ZSH_CUSTOM" = none →
      w.runProbe ohMyZshProbeArgs = Except.error e →
      resolveProbePath w "ZSH_CUSTOM" ohMyZshProbeArgs
        (w.homeDir ++ [".oh-my-zsh"] ++ ["custom"]) =
        ([Event.spawn "zsh" ohMyZshProbeArgs],
          w.homeDir ++ [".oh-my-zsh"] ++ ["custom"])) ∧
    (∀ v, w.envVar "ZIM_HOME" = some v →
      resolveProbePath w "ZIM_HOME" zimProbeArgs (w.homeDir ++ [".zim"]) =
        ([], [v])) ∧
    (∀ out, w.envVar "ZIM_HOME" = none →
      w.runProbe zimProbeArgs = Except.ok out →
      resolveProbePath w "ZIM_HOME" zimProbeArgs (w.homeDir ++ [".zim"]) =
        ([Event.spawn "zsh" zimProbeArgs], [out])) ∧
    (∀ e, w.envVar "ZIM_HOME" = none →
      w.runProbe zimProbeArgs = Except.error e →
      resolveProbePath w "ZIM_HOME" zimProbeArgs (w.homeDir ++ [".zim"]) =
        ([Event.spawn "zsh" zimProbeArgs], w.homeDir ++ [".zim"])) := by
  refine ⟨?_, ?_, ?_, ?_, ?_, ?_⟩
  · intro v h
    simp [resolveProbePath, h]
  · intro out h h2
    simp [resolveProbePath, h, h2]
  · intro e h h2
    simp [resolveProbePath, h, h2]
  · intro v h
    simp [resolveProbePath, h]
  · intro out h h2
    simp [resolveProbePath, h, h2]
  · intro e h h2
    simp [resolveProbePath, h, h2]

/-- Witness for C8 at a concrete world with `ZSH_CUSTOM` set. -/
theorem C8_witness :
    resolveProbePath wBase "ZSH_CUSTOM" ohMyZshProbeArgs
      (wBase.homeDir ++ [".oh-my-zsh"] ++ ["custom"]) = ([], ["/custom"]) :=
  (C8_env_probe_default_order wBase).1 "/custom" rfl

/-- An event is dry-run safe when, if it is a real spawn at all, it is one of
the two direct environment-probing helper commands. -/
def dryRunSafe (e : Event) : Prop :=
  ∀ p a, e = Event.spawn p a →
    p = "zsh" ∧ (a = zimProbeArgs ∨ a = ohMyZshProbeArgs)

/-- In dry-run mode the executor only traces the command. -/
theorem execStatusChecked_dryRun (w : World) (prog : String)
    (args : List String) (acc : List Nat) :
    execStatusChecked w RunType.dryRun prog args acc =
      ([Event.wouldRun prog args], Except.ok ()) := rfl

/-- Every event of the probe-resolution trace is the probe spawn itself. -/
theorem resolveProbePath_fst_mem (w : World) (n : String) (a : List String)
    (d : FsPath) :
    ∀ e ∈ (resolveProbePath w n a d).1, e = Event.spawn "zsh" a := by
  intro e he
  unfold resolveProbePath at he
  split at he
  · simp at he
  · split at he <;> simpa using he

/-- Events of the dry-run trace of run_zr are dry-run safe. -/
theorem run_zr_dryRunSafe (w : World) :
    ∀ e ∈ (run_zr w RunType.dryRun).1, dryRunSafe e := by
  intro e he
  unfold run_zr at he
  split at he
  · simp at he
  · split at he
    · simp at he
    · simp [execStatusChecked] at he
      rcases he with h | h <;> simp [dryRunSafe, h]

/-- Events of the dry-run trace of run_antidote are dry-run safe. -/
theorem run_antidote_dryRunSafe (w : World) :
    ∀ e ∈ (run_antidote w RunType.dryRun).1, dryRunSafe e := by
  intro e he
  unfold run_antidote at he
  split at he
  · simp at he
  · split at he
    · simp at he
    · simp [execStatusChecked] at he
      rcases he with h | h <;> simp [dryRunSafe, h]

/-- Events of the dry-run trace of run_antibody are dry-run safe. -/
theorem run_antibody_dryRunSafe (w : World) :
    ∀ e ∈ (run_antibody w RunType.dryRun).1, dryRunSafe e := by
  intro e he
  unfold run_antibody at he
  split at he
  · simp at he
  · split at he
    · simp at he
    · simp [execStatusChecked] at he
      rcases he with h | h <;> simp [dryRunSafe, h]

/-- Events of the dry-run trace of run_antigen are dry-run safe. -/
theorem run_antigen_dryRunSafe (w : World) :
    ∀ e ∈ (run_antigen w RunType.dryRun).1, dryRunSafe e := by
  intro e he
  unfold run_antigen at he
  split at he
  · simp at he
  · split at he
    · simp at he
    · split at he
      · simp at he
      · simp [execStatusChecked] at he
        rcases he with h | h <;> simp [dryRunSafe, h]

/-- Events of the dry-run trace of run_zgenom are dry-run safe. -/
theorem run_zgenom_dryRunSafe (w : World) :
    ∀ e ∈ (run_zgenom w RunType.dryRun).1, dryRunSafe e := by
  intro e he
  unfold run_zgenom at he
  split at he
  · simp at he
  · split at he
    · simp at he
    · split at he
      · simp at he
      · simp [execStatusChecked] at he
        rcases he with h | h <;> simp [dryRunSafe, h]

/-- Events of the dry-run trace of run_zplug are dry-run safe. -/
theorem run_zplug_dryRunSafe (w : World) :
    ∀ e ∈ (run_zplug w RunType.dryRun).1, dryRunSafe e := by
  intro e he
  unfold run_zplug at he
  split at he
  · simp at he
  · split at he
    · simp at he
    · split at he
      · simp at he
      · simp [execStatusChecked] at he
        rcases he with h | h <;> simp [dryRunSafe, h]

/-- Events of the dry-run trace of run_zinit are dry-run safe. -/
theorem run_zinit_dryRunSafe (w : World) :
    ∀ e ∈ (run_zinit w RunType.dryRun).1, dryRunSafe e := by
  intro e he
  unfold run_zinit at he
  split at he
  · simp at he
  · split at he
    · simp at he
    · split at he
      · simp at he
      · simp [execStatusChecked] at he
        rcases he with h | h <;> simp [dryRunSafe, h]

/-- Events of the dry-run trace of run_zi are dry-run safe. -/
theorem run_zi_dryRunSafe (w : World) :
    ∀ e ∈ (run_zi w RunType.dryRun).1, dryRunSafe e := by
  intro e he
  unfold run_zi at he
  split at he
  · simp at he
  · split at he
    · simp at he
    · split at he
      · simp at he
      · simp [execStatusChecked] at he
        rcases he with h | h <;> simp [dryRunSafe, h]

/-- Events of the dry-run trace of run_zim are dry-run safe: the only real spawn
it can contain is the ZIM_HOME probe. -/
theorem run_zim_dryRunSafe (w : World) :
    ∀ e ∈ (run_zim w RunType.dryRun).1, dryRunSafe e := by
  intro e he
  obtain ⟨pt, cd, hres⟩ : ∃ pt cd,
      resolveProbePath w "ZIM_HOME" zimProbeArgs (w.homeDir ++ [".zim"]) = (pt, cd) :=
    ⟨_, _, rfl⟩
  have hpt : ∀ x ∈ pt, x = Event.spawn "zsh" zimProbeArgs := by
    intro x hx
    exact resolveProbePath_fst_mem w "ZIM_HOME" zimProbeArgs
      (w.homeDir ++ [".zim"]) x (by rw [hres]; exact hx)
  unfold run_zim at he
  rw [hres] at he
  split at he
  · simp at he
  · dsimp only at he
    split at he
    · dsimp only at he
      simp [dryRunSafe, hpt e he]
    · dsimp only at he
      rw [execStatusChecked_dryRun] at he
      simp only [List.mem_append, List.mem_cons, List.not_mem_nil, or_false] at he
      rcases he with h | h | h
      · simp [dryRunSafe, hpt e h]
      · simp [dryRunSafe, h]
      · simp [dryRunSafe, h]

/-- Every event of a multi-pull trace is a pull of a set member. -/
theorem multiPull_mem (s : RepoSet) :
    ∀ e ∈ multiPull s, ∃ r ∈ s, e = Event.pullRepo r := by
  intro e he
  simp only [multiPull, List.mem_map] at he
  obtain ⟨r, hr, hre⟩ := he
  exact ⟨r, hr, hre.symm⟩

/-- Events of the dry-run trace of run_oh_my_zsh are dry-run safe: the only real
spawn it can contain is the ZSH_CUSTOM probe. -/
theorem run_oh_my_zsh_dryRunSafe (w : World) :
    ∀ e ∈ (run_oh_my_zsh w RunType.dryRun).1, dryRunSafe e := by
  intro e he
  obtain ⟨pt, cd, hres⟩ : ∃ pt cd,
      resolveProbePath w "ZSH_CUSTOM" ohMyZshProbeArgs
        (w.homeDir ++ [".oh-my-zsh"] ++ ["custom"]) = (pt, cd) :=
    ⟨_, _, rfl⟩
  have hpt : ∀ x ∈ pt, x = Event.spawn "zsh" ohMyZshProbeArgs := by
    intro x hx
    exact resolveProbePath_fst_mem w "ZSH_CUSTOM" ohMyZshProbeArgs
      (w.homeDir ++ [".oh-my-zsh"] ++ ["custom"]) x (by rw [hres]; exact hx)
  unfold run_oh_my_zsh at he
  split at he
  · simp at he
  · dsimp only at he
    split at he
    · simp at he
    · rw [hres] at he
      dsimp only at he
      split at he
      · simp only [List.mem_cons] at he
        rcases he with h | h
        · simp [dryRunSafe, h]
        · simp [dryRunSafe, hpt e h]
      · rw [execStatusChecked_dryRun] at he
        simp only [List.mem_cons, List.mem_append, List.mem_singleton] at he
        rcases he with ((h | h) | h) | h | h
        · simp [dryRunSafe, h]
        · simp [dryRunSafe, hpt e h]
        · split at h
          · simp at h
          · simp only [List.mem_cons] at h
            rcases h with h | h
            · simp [dryRunSafe, h]
            · obtain ⟨r, _, hr⟩ := multiPull_mem _ e h
              simp [dryRunSafe, hr]
        · simp [dryRunSafe, h]
        · simp at h

/-- C1: the claim that in DryRun mode no subprocess is ever spawned,
including environment-probing helper commands, is false: with `ZIM_HOME`
unset, `run_zim` in DryRun mode really spawns the direct `zsh` probe (and
still reports success). -/
theorem C1_counterexample :
    Event.spawn "zsh" zimProbeArgs ∈ (run_zim wBase RunType.dryRun).1 ∧
    (run_zim wBase RunType.dryRun).2 = Except.ok () := by
  constructor
  · simp [run_zim, wBase, require, resolveProbePath, pathRequire,
      execStatusChecked]
  · rfl

/-- C1 (amended): in DryRun mode no step spawns a subprocess through the
run-type executor — the update command of the step itself is only traced as a
would-run and reported successful — but the direct environment-probing
helper commands of run_zim and run_oh_my_zsh may still really spawn; every
real spawn in a DryRun trace is one of those two probe commands. -/
theorem C1_dryRun_spawns_only_probes (w : World) (e : Event) (p : String)
    (a : List String)
    (hmem : e ∈ (run_zr w RunType.dryRun).1 ∨
      e ∈ (run_antidote w RunType.dryRun).1 ∨
      e ∈ (run_antibody w RunType.dryRun).1 ∨
      e ∈ (run_antigen w RunType.dryRun).1 ∨
      e ∈ (run_zgenom w RunType.dryRun).1 ∨
      e ∈ (run_zplug w RunType.dryRun).1 ∨
      e ∈ (run_zinit w RunType.dryRun).1 ∨
      e ∈ (run_zi w RunType.dryRun).1 ∨
      e ∈ (run_zim w RunType.dryRun).1 ∨
      e ∈ (run_oh_my_zsh w RunType.dryRun).1)
    (he : e = Event.spawn p a) :
    (p = "zsh" ∧ (a = zimProbeArgs ∨ a = ohMyZshProbeArgs)) ∧
    (∀ prog args acc, execStatusChecked w RunType.dryRun prog args acc =
      ([Event.wouldRun prog args], Except.ok ())) := by
  refine ⟨?_, fun prog args acc => rfl⟩
  rcases hmem with h | h | h | h | h | h | h | h | h | h
  · exact run_zr_dryRunSafe w e h p a he
  · exact run_antidote_dryRunSafe w e h p a he
  · exact run_antibody_dryRunSafe w e h p a he
  · exact run_antigen_dryRunSafe w e h p a he
  · exact run_zgenom_dryRunSafe w e h p a he
  · exact run_zplug_dryRunSafe w e h p a he
  · exact run_zinit_dryRunSafe w e h p a he
  · exact run_zi_dryRunSafe w e h p a he
  · exact run_zim_dryRunSafe w e h p a he
  · exact run_oh_my_zsh_dryRunSafe w e h p a he

/-- Witness for the amended C1 at a concrete world and the probe spawn of
run_zim. -/
theorem C1_witness :
    ("zsh" = "zsh" ∧ (zimProbeArgs = zimProbeArgs ∨
      zimProbeArgs = ohMyZshProbeArgs)) ∧
    (∀ prog args acc, execStatusChecked wBase RunType.dryRun prog args acc =
      ([Event.wouldRun prog args], Except.ok ())) :=
  C1_dryRun_spawns_only_probes wBase (Event.spawn "zsh" zimProbeArgs) "zsh"
    zimProbeArgs
    (Or.inr (Or.inr (Or.inr (Or.inr (Or.inr (Or.inr (Or.inr (Or.inr
      (Or.inl (by simp [run_zim, wBase, require, resolveProbePath,
        pathRequire, execStatusChecked]))))))))))
    rfl

/-- C2: for every step function, when a required external program is absent
from the search path the step returns the RequirementMissing error at once,
with an empty trace (no subprocess, not even a probe, is spawned), and the
runner classifies that error as Skipped, never Failed. -/
theorem C2_requirement_missing_skips (w : World) (rt : RunType) :
    (w.pathLookup "zsh" = none →
      run_zr w rt = ([], Except.error (StepError.requirementMissing "zsh")) ∧
      run_antidote w rt = ([], Except.error (StepError.requirementMissing "zsh")) ∧
      run_antibody w rt = ([], Except.error (StepError.requirementMissing "zsh")) ∧
      run_antigen w rt = ([], Except.error (StepError.requirementMissing "zsh")) ∧
      run_zgenom w rt = ([], Except.error (StepError.requirementMissing "zsh")) ∧
      run_zplug w rt = ([], Except.error (StepError.requirementMissing "zsh")) ∧
      run_zinit w rt = ([], Except.error (StepError.requirementMissing "zsh")) ∧
      run_zi w rt = ([], Except.error (StepError.requirementMissing "zsh")) ∧
      run_zim w rt = ([], Except.error (StepError.requirementMissing "zsh")) ∧
      run_oh_my_zsh w rt = ([], Except.error (StepError.requirementMissing "zsh"))) ∧
    (∀ z, w.pathLookup "zsh" = some z → w.pathLookup "zr" = none →
      run_zr w rt = ([], Except.error (StepError.requirementMissing "zr"))) ∧
    (∀ z, w.pathLookup "zsh" = some z → w.pathLookup "antibody" = none →
      run_antibody w rt = ([], Except.error (StepError.requirementMissing "antibody"))) ∧
    (∀ n, classify (Except.error (StepError.requirementMissing n)) = Outcome.skipped ∧
      classify (Except.error (StepError.requirementMissing n)) ≠ Outcome.failed) := by
  refine ⟨?_, ?_, ?_, ?_⟩
  · intro h
    refine ⟨?_, ?_, ?_, ?_, ?_, ?_, ?_, ?_, ?_, ?_⟩ <;>
      simp [run_zr, run_antidote, run_antibody, run_antigen, run_zgenom,
        run_zplug, run_zinit, run_zi, run_zim, run_oh_my_zsh, require, h]
  · intro z hz hzr
    simp [run_zr, require, hz, hzr]
  · intro z hz hab
    simp [run_antibody, require, hz, hab]
  · intro n
    exact ⟨rfl, by simp [classify]⟩

/-- Witness for C2: with nothing installed run_zr skips with an empty trace;
with only zsh installed run_antibody skips with an empty trace. -/
theorem C2_witness :
    run_zr wNoZsh RunType.execute =
      ([], Except.error (StepError.requirementMissing "zsh")) ∧
    run_antibody wOnlyZsh RunType.execute =
      ([], Except.error (StepError.requirementMissing "antibody")) :=
  ⟨((C2_requirement_missing_skips wNoZsh RunType.execute).1 rfl).1,
   (C2_requirement_missing_skips wOnlyZsh RunType.execute).2.2.1 "/bin/zsh"
     rfl rfl⟩

/-- The executor trace for one command is a single event: the real spawn
or the dry-run record of that very command. -/
theorem execStatusChecked_fst_mem (w : World) (rt : RunType) (prog : String)
    (args : List String) (acc : List Nat) :
    ∀ e ∈ (execStatusChecked w rt prog args acc).1,
      e = Event.spawn prog args ∨ e = Event.wouldRun prog args := by
  intro e he
  cases rt <;> simp [execStatusChecked] at he <;> simp [he]

/-- Membership after removal implies the member differs from the removed
key. -/
theorem RepoSet.mem_remove_ne (s : RepoSet) (k x : String)
    (h : x ∈ RepoSet.remove s k) : x ≠ k := by
  simp [RepoSet.remove, List.mem_filter] at h
  exact h.2

/-- C3: in the oh-my-zsh step, the upgrade script exiting with the declared
accepted code 80 yields success (classified Succeeded/Ignored, not Failed),
while any other nonzero exit code makes the step fail. -/
theorem C3_accepted_exit_code (w : World) (z c : String) (s : RepoSet)
    (hz : w.pathLookup "zsh" = some z)
    (hdir : w.pathExists (w.homeDir ++ [".oh-my-zsh"]) = true)
    (henv : w.envVar "ZSH_CUSTOM" = some c)
    (hdisc : discoverRepos (walkNode 2 (w.fsAt [c]) [c]) [] = Except.ok s) :
    (w.exitCode "zsh" (ohMyZshUpgradeArgs w) = 80 →
      (run_oh_my_zsh w RunType.execute).2 = Except.ok () ∧
      classify (run_oh_my_zsh w RunType.execute).2 = Outcome.succeeded) ∧
    (∀ k, w.exitCode "zsh" (ohMyZshUpgradeArgs w) = k → k ≠ 0 → k ≠ 80 →
      (run_oh_my_zsh w RunType.execute).2 =
        Except.error (StepError.nonZeroExit k) ∧
      classify (run_oh_my_zsh w RunType.execute).2 = Outcome.failed) := by
  constructor
  · intro h80
    simp only [ohMyZshUpgradeArgs] at h80
    constructor <;>
      simp [run_oh_my_zsh, require, hz, pathRequire, hdir, resolveProbePath,
        henv, hdisc, execStatusChecked, ohMyZshUpgradeArgs, h80, classify]
  · intro k hk h0 h80
    simp only [ohMyZshUpgradeArgs] at hk
    constructor <;>
      simp [run_oh_my_zsh, require, hz, pathRequire, hdir, resolveProbePath,
        henv, hdisc, execStatusChecked, ohMyZshUpgradeArgs, hk, h0, h80,
        classify]

/-- Witness for C3: a concrete world where the upgrade script exits 80 and
the step succeeds, and one where it exits 7 and the step fails. -/
theorem C3_witness :
    ((run_oh_my_zsh wExit80 RunType.execute).2 = Except.ok () ∧
      classify (run_oh_my_zsh wExit80 RunType.execute).2 = Outcome.succeeded) ∧
    ((run_oh_my_zsh wExit7 RunType.execute).2 =
        Except.error (StepError.nonZeroExit 7) ∧
      classify (run_oh_my_zsh wExit7 RunType.execute).2 = Outcome.failed) :=
  ⟨(C3_accepted_exit_code wExit80 "/bin/zsh" "/custom" ["/custom/plug"]
      rfl rfl rfl rfl).1 rfl,
   (C3_accepted_exit_code wExit7 "/bin/zsh" "/custom" ["/custom/plug"]
      rfl rfl rfl rfl).2 7 rfl (by decide) (by decide)⟩

/-- The oh-my-zsh repository root never appears as a pull event in the
trace of the step, in any world and any run type. -/
theorem ohMyZsh_root_not_pulled (w : World) (rt : RunType) :
    Event.pullRepo (canon (w.homeDir ++ [".oh-my-zsh"])) ∉
      (run_oh_my_zsh w rt).1 := by
  intro he
  obtain ⟨pt, cd, hres⟩ : ∃ pt cd,
      resolveProbePath w "ZSH_CUSTOM" ohMyZshProbeArgs
        (w.homeDir ++ [".oh-my-zsh"] ++ ["custom"]) = (pt, cd) :=
    ⟨_, _, rfl⟩
  have hpt : ∀ x ∈ pt, x = Event.spawn "zsh" ohMyZshProbeArgs := by
    intro x hx
    exact resolveProbePath_fst_mem w "ZSH_CUSTOM" ohMyZshProbeArgs
      (w.homeDir ++ [".oh-my-zsh"] ++ ["custom"]) x (by rw [hres]; exact hx)
  unfold run_oh_my_zsh at he
  split at he
  · simp at he
  · dsimp only at he
    split at he
    · simp at he
    · rw [hres] at he
      dsimp only at he
      split at he
      · simp only [List.mem_cons] at he
        rcases he with h | h
        · simp at h
        · have := hpt _ h
          simp at this
      · simp only [List.mem_cons, List.mem_append] at he
        rcases he with ((h | h) | h) | h
        · simp at h
        · have := hpt _ h
          simp at this
        · split at h
          · simp at h
          · simp only [List.mem_cons] at h
            rcases h with h | h
            · simp at h
            · obtain ⟨r, hr, hre⟩ := multiPull_mem _ _ h
              have hne := RepoSet.mem_remove_ne _ _ _ hr
              simp at hre
              exact hne hre.symm
        · rcases execStatusChecked_fst_mem w rt "zsh" (ohMyZshUpgradeArgs w)
              [80] _ h with h2 | h2 <;> simp at h2

/-- C4: the oh-my-zsh repository root is removed from the discovered set
before the bulk update, so no run of the step ever pulls (touches) that
path: the removed path occurs zero times as a pull event in the trace, in
every world and every run type. -/
theorem C4_excluded_path_never_pulled (w : World) (rt : RunType) :
    ((run_oh_my_zsh w rt).1.count
      (Event.pullRepo (canon (w.homeDir ++ [".oh-my-zsh"])))) = 0 :=
  List.count_eq_zero.mpr (ohMyZsh_root_not_pulled w rt)

/-- Every entry the bounded walk yields lies at most `fuel` levels below the
root path. -/
theorem walkNode_depth (fuel : Nat) :
    ∀ (t : FsNode) (d p : FsPath) (b : Bool),
      Except.ok (p, b) ∈ walkNode fuel t d →
      ∃ rest, p = d ++ rest ∧ rest.length ≤ fuel := by
  induction fuel with
  | zero =>
    intro t d p b h
    cases t with
    | err m => simp [walkNode] at h
    | dir n r c =>
      simp [walkNode] at h
      exact ⟨[], by simp [h.1], by simp⟩
  | succ n ih =>
    intro t d p b h
    cases t with
    | err m => simp [walkNode] at h
    | dir nm r c =>
      simp only [walkNode, List.mem_cons, List.mem_flatMap, List.mem_attach,
        true_and] at h
      rcases h with h | ⟨child, hmem⟩
      · refine ⟨[], ?_, by simp⟩
        have := (Except.ok.injEq _ _).mp h
        simp [Prod.ext_iff] at this
        simp [this.1]
      · obtain ⟨rest, hrest, hlen⟩ := ih child.1 (d ++ [child.1.name]) p b hmem
        refine ⟨child.1.name :: rest, ?_, ?_⟩
        · simp [hrest]
        · simp
          omega

/-- Every repository the discovery loop adds comes from an `ok` walk entry
marked as a repository root, keyed by its canonical path. -/
theorem discoverRepos_mem (entries : List (Except String (FsPath × Bool))) :
    ∀ (acc s : RepoSet), discoverRepos entries acc = Except.ok s →
      ∀ r ∈ s, r ∈ acc ∨
        ∃ p, Except.ok (p, true) ∈ entries ∧ r = canon p := by
  induction entries with
  | nil =>
    intro acc s h r hr
    simp [discoverRepos] at h
    subst h
    exact Or.inl hr
  | cons e rest ih =>
    intro acc s h r hr
    cases e with
    | error m => simp [discoverRepos] at h
    | ok pb =>
      obtain ⟨p, b⟩ := pb
      rw [discoverRepos] at h
      rcases ih _ s h r hr with hacc | ⟨q, hq, hrq⟩
      · cases b with
        | false =>
          simp at hacc
          exact Or.inl hacc
        | true =>
          simp at hacc
          unfold RepoSet.insert at hacc
          split at hacc
          · exact Or.inl hacc
          · simp at hacc
            rcases hacc with hacc | hacc
            · exact Or.inl hacc
            · exact Or.inr ⟨p, by simp, hacc⟩
      · exact Or.inr ⟨q, List.mem_cons_of_mem _ hq, hrq⟩

/-- C5: discovery in the oh-my-zsh step walks the custom root only to depth
2: every walked entry, and hence every inserted repository path, is at most
two directory levels below the custom directory. -/
theorem C5_discovery_depth_bounded (t : FsNode) (d : FsPath) (s : RepoSet)
    (h : discoverRepos (walkNode 2 t d) [] = Except.ok s) :
    (∀ p b, Except.ok (p, b) ∈ walkNode 2 t d →
      ∃ rest, p = d ++ rest ∧ rest.length ≤ 2) ∧
    (∀ r ∈ s, ∃ p rest, r = canon p ∧ p = d ++ rest ∧ rest.length ≤ 2) := by
  constructor
  · intro p b hm
    exact walkNode_depth 2 t d p b hm
  · intro r hr
    rcases discoverRepos_mem _ _ _ h r hr with hacc | ⟨p, hp, hrp⟩
    · simp at hacc
    · obtain ⟨rest, hrest, hlen⟩ := walkNode_depth 2 t d p true hp
      exact ⟨p, rest, hrp, hrest, hlen⟩

/-- Witness for C5 on a concrete two-level tree. -/
theorem C5_witness :
    ∃ p rest, "/c/p" = canon p ∧ p = ["/c"] ++ rest ∧ rest.length ≤ 2 :=
  (C5_discovery_depth_bounded
      (FsNode.dir "c" false [FsNode.dir "p" true []]) ["/c"] ["/c/p"]
      rfl).2 "/c/p" (by simp)

/-- C6: if the repository set is empty after discovery and exclusion, the
oh-my-zsh step performs no multi-pull (no pull event and no announcement)
and proceeds directly from the separator to the upgrade script. -/
theorem C6_empty_set_skips_pull (w : World) (rt : RunType) (z c : String)
    (s : RepoSet)
    (hz : w.pathLookup "zsh" = some z)
    (hdir : w.pathExists (w.homeDir ++ [".oh-my-zsh"]) = true)
    (henv : w.envVar "ZSH_CUSTOM" = some c)
    (hdisc : discoverRepos (walkNode 2 (w.fsAt [c]) [c]) [] = Except.ok s)
    (hempty : RepoSet.remove s (canon (w.homeDir ++ [".oh-my-zsh"])) = []) :
    run_oh_my_zsh w rt =
      (Event.separator "oh-my-zsh" ::
        (execStatusChecked w rt "zsh" (ohMyZshUpgradeArgs w) [80]).1,
       (execStatusChecked w rt "zsh" (ohMyZshUpgradeArgs w) [80]).2) ∧
    Event.println "Pulling custom plugins and themes" ∉
      (run_oh_my_zsh w rt).1 ∧
    (∀ r, Event.pullRepo r ∉ (run_oh_my_zsh w rt).1) := by
  have h1 : run_oh_my_zsh w rt =
      (Event.separator "oh-my-zsh" ::
        (execStatusChecked w rt "zsh" (ohMyZshUpgradeArgs w) [80]).1,
       (execStatusChecked w rt "zsh" (ohMyZshUpgradeArgs w) [80]).2) := by
    simp [run_oh_my_zsh, require, hz, pathRequire, hdir, resolveProbePath,
      henv, hdisc, hempty]
  refine ⟨h1, ?_, ?_⟩
  · rw [h1]
    simp only [List.mem_cons]
    rintro (h | h)
    · simp at h
    · rcases execStatusChecked_fst_mem w rt "zsh" (ohMyZshUpgradeArgs w)
          [80] _ h with h2 | h2 <;> simp at h2
  · intro r
    rw [h1]
    simp only [List.mem_cons]
    rintro (h | h)
    · simp at h
    · rcases execStatusChecked_fst_mem w rt "zsh" (ohMyZshUpgradeArgs w)
          [80] _ h with h2 | h2 <;> simp at h2

/-- Witness for C6 at a world whose custom directory holds no repository. -/
theorem C6_witness :
    run_oh_my_zsh wNoRepos RunType.dryRun =
      (Event.separator "oh-my-zsh" ::
        (execStatusChecked wNoRepos RunType.dryRun "zsh"
          (ohMyZshUpgradeArgs wNoRepos) [80]).1,
       (execStatusChecked wNoRepos RunType.dryRun "zsh"
          (ohMyZshUpgradeArgs wNoRepos) [80]).2) :=
  (C6_empty_set_skips_pull wNoRepos RunType.dryRun "/bin/zsh" "/custom" []
    rfl rfl rfl rfl rfl).1

/-- C7: a traversal error during discovery fails the oh-my-zsh step itself:
the step returns the IO error, neither the multi-pull nor the upgrade script
runs, the runner classifies the step Failed, and a sibling step in the same
run still gets its own independent classification. -/
theorem C7_walk_error_contained (w : World) (rt : RunType) (z c msg : String)
    (hz : w.pathLookup "zsh" = some z)
    (hdir : w.pathExists (w.homeDir ++ [".oh-my-zsh"]) = true)
    (henv : w.envVar "ZSH_CUSTOM" = some c)
    (hdisc : discoverRepos (walkNode 2 (w.fsAt [c]) [c]) [] =
      Except.error (StepError.ioFailure msg)) :
    run_oh_my_zsh w rt =
      ([Event.separator "oh-my-zsh"], Except.error (StepError.ioFailure msg)) ∧
    classify (run_oh_my_zsh w rt).2 = Outcome.failed ∧
    (∀ r, Event.pullRepo r ∉ (run_oh_my_zsh w rt).1) ∧
    Event.wouldRun "zsh" (ohMyZshUpgradeArgs w) ∉ (run_oh_my_zsh w rt).1 ∧
    Event.spawn "zsh" (ohMyZshUpgradeArgs w) ∉ (run_oh_my_zsh w rt).1 ∧
    runSteps [("oh-my-zsh", run_oh_my_zsh), ("zr", run_zr)] w rt =
      [("oh-my-zsh", Outcome.failed), ("zr", classify (run_zr w rt).2)] := by
  have h1 : run_oh_my_zsh w rt =
      ([Event.separator "oh-my-zsh"], Except.error (StepError.ioFailure msg)) := by
    simp [run_oh_my_zsh, require, hz, pathRequire, hdir, resolveProbePath,
      henv, hdisc]
  refine ⟨h1, ?_, ?_, ?_, ?_, ?_⟩
  · rw [h1]
    simp [classify]
  · intro r
    rw [h1]
    simp
  · rw [h1]
    simp
  · rw [h1]
    simp
  · simp [runSteps, h1, classify]

/-- Witness for C7 at a world whose custom directory is inaccessible. -/
theorem C7_witness :
    run_oh_my_zsh wWalkErr RunType.execute =
      ([Event.separator "oh-my-zsh"],
        Except.error (StepError.ioFailure "denied")) :=
  (C7_walk_error_contained wWalkErr RunType.execute "/bin/zsh" "/custom"
    "denied" rfl rfl rfl rfl).1

end Topgrade
